import Mathlib

/-!
Shallow embedding of the bleemeo-python client core
(`src/bleemeo/client.py`, `src/bleemeo/_authenticator.py`,
`src/bleemeo/exceptions.py`).

Modelling conventions:
* `datetime` values and `timedelta` values are integer microseconds
  (the resolution of Python datetimes).
* Python truthiness of an optional string (`if self._current_refresh:`)
  is `truthy`; `str(x)` applied to an optional string is `strOpt`
  (`str(None) = "None"`).
* The network is an oracle: OAuth exchanges are a function from grant
  type to the response of the token endpoint, and data-plane sends are a
  function from a send counter to the HTTP response, consumed in order.
* Exceptions are `Except` error values; each embedded function also
  returns logs (requests sent, sleeps performed, deadline writes) so that
  the temporal claims are statable.
-/

namespace Bleemeo

/-- Microseconds per second, the scale between modelled `datetime`
differences and whole-second delays. -/
def usPerSec : Int := 1000000

/-- Embeds `math.ceil(timedelta.total_seconds())`: the number of whole
seconds covering `w` microseconds (used by `Client.do` only with `0 < w`). -/
def ceilSeconds (w : Int) : Int :=
  (w + (usPerSec - 1)) / usPerSec

/-- Python truthiness of an optional string: `None` and `""` are falsy. -/
def truthy : Option String → Bool
  | none => false
  | some s => s != ""

/-- Embeds `str(x)` for `x` an optional string: `str(None)` is `"None"`. -/
def strOpt : Option String → String
  | none => "None"
  | some s => s

/-- An HTTP response as seen by the request pipeline: the status code and
the `Retry-After` header parsed by `int()` when present (`int()` accepts
negative values, hence `Int`). -/
structure Response where
  status : Nat
  retryAfter : Option Int := none
deriving DecidableEq, Repr

/-- The OAuth grant types used by `Authenticator.__authenticate`. -/
inductive Grant
  | refreshTok
  | password
deriving DecidableEq, Repr

/-- A response of the OAuth token endpoint: status plus the JSON fields
`access_token` and `refresh_token` the code reads on success. -/
structure OAuthResponse where
  status : Nat
  accessToken : String
  refreshToken : String
deriving DecidableEq, Repr

/-- The mutable and configured state of `Authenticator`: configured
username/password and the current access/refresh tokens. -/
structure AuthState where
  username : Option String
  password : Option String
  currentToken : Option String
  currentRefresh : Option String
deriving DecidableEq, Repr

/-- A form-encoded POST to the token endpoint, as recorded for the log:
the grant type with the credential fields the code puts in the body. -/
inductive TokenReq
  | refreshGrant (refreshToken : String)
  | passwordGrant (username : String) (pw : String)
deriving DecidableEq, Repr

/-- Embeds `Authenticator.__authenticate`. The OAuth endpoint is the
oracle `oauth`. Returns the updated state (or the error response carried
by the raised `AuthenticationError`) together with the list of token
requests performed, in order. -/
def authenticate (A : AuthState) (oauth : Grant → OAuthResponse) :
    Except OAuthResponse AuthState × List TokenReq :=
  if truthy A.currentRefresh then
    let resp := oauth .refreshTok
    let req : TokenReq := .refreshGrant (strOpt A.currentRefresh)
    if resp.status = 200 then
      (.ok { A with currentToken := some resp.accessToken,
                    currentRefresh := some resp.refreshToken }, [req])
    else if !truthy A.username then
      (.error resp, [req])
    else
      let resp2 := oauth .password
      let req2 : TokenReq := .passwordGrant (strOpt A.username) (A.password.getD "")
      if resp2.status != 200 then
        (.error resp2, [req, req2])
      else
        (.ok { A with currentToken := some resp2.accessToken,
                      currentRefresh := some resp2.refreshToken }, [req, req2])
  else
    let resp2 := oauth .password
    let req2 : TokenReq := .passwordGrant (strOpt A.username) (A.password.getD "")
    if resp2.status != 200 then
      (.error resp2, [req2])
    else
      (.ok { A with currentToken := some resp2.accessToken,
                    currentRefresh := some resp2.refreshToken }, [req2])

/-- Embeds `Authenticator.get_token`: authenticate when the current token
is falsy or a refetch is forced, then return `str(current_token)`. -/
def getToken (A : AuthState) (oauth : Grant → OAuthResponse)
    (forceRefetch : Bool) :
    Except OAuthResponse (String × AuthState) × List TokenReq :=
  if !truthy A.currentToken || forceRefetch then
    match authenticate A oauth with
    | (.ok A2, log) => (.ok (strOpt A2.currentToken, A2), log)
    | (.error r, log) => (.error r, log)
  else
    (.ok (strOpt A.currentToken, A), [])

/-- One send of the Authenticated Request Executor, as recorded for the
log: the bearer token attached (none when the request is not
authenticated) and whether the token was obtained with a forced refetch. -/
structure SendRecord where
  bearer : Option String
  forced : Bool
deriving DecidableEq, Repr

/-- Embeds the `is_retry = True` invocation of `Client._do_request`
(which never recurses further, so the recursion of the source is unrolled
into this helper plus `doRequest`). `net` maps the send counter to the
response; `k` is the current send counter. Returns the response and the
updated token-store state (or the OAuth error response raised from
`get_token`), the new send counter and the sends performed. -/
def doRequestRetry (A : AuthState) (oauth : Grant → OAuthResponse)
    (net : Nat → Response) (k : Nat) (authed : Bool) :
    Except OAuthResponse (Response × AuthState) × Nat × List SendRecord :=
  if authed then
    match getToken A oauth true with
    | (.error r, _) => (.error r, k, [])
    | (.ok (tok, A2), _) =>
      (.ok (net k, A2), k + 1, [{ bearer := some tok, forced := true }])
  else
    (.ok (net k, A), k + 1, [{ bearer := none, forced := false }])

/-- Embeds `Client._do_request` called with `is_retry = False` (its
default): attach the bearer token when authenticated, send, and on a 401
of an authenticated call resend exactly once with a forced token refetch
(`doRequestRetry`). -/
def doRequest (A : AuthState) (oauth : Grant → OAuthResponse)
    (net : Nat → Response) (k : Nat) (authed : Bool) :
    Except OAuthResponse (Response × AuthState) × Nat × List SendRecord :=
  if authed then
    match getToken A oauth false with
    | (.error r, _) => (.error r, k, [])
    | (.ok (tok, A2), _) =>
      let resp := net k
      let rec1 : SendRecord := { bearer := some tok, forced := false }
      if resp.status = 401 then
        match doRequestRetry A2 oauth net (k + 1) true with
        | (res, k2, log) => (res, k2, rec1 :: log)
      else
        (.ok (resp, A2), k + 1, [rec1])
  else
    (.ok (net k, A), k + 1, [{ bearer := none, forced := false }])

/-- The typed errors `Client` raises from the request pipeline
(`src/bleemeo/exceptions.py`). `throttle` carries `delay_seconds`, the
computed `throttle_deadline`, and the response when the error was built
from an actual 429 (none for the prevent path). `oauthFailed` is an
`AuthenticationError` escaping from the token store. `sleepValueError`
models the `ValueError` that `time.sleep` raises on a negative delay. -/
inductive DoError
  | badRequest (r : Response)
  | authFailed (r : Response)
  | notFound (r : Response)
  | throttle (delaySeconds : Int) (deadline : Int) (src : Option Response)
  | apiError (r : Response)
  | oauthFailed (r : OAuthResponse)
  | sleepValueError (d : Int)
deriving DecidableEq, Repr

/-- The client state threaded through the pipeline: the shared throttle
deadline (microseconds), the token-store state, and the send counter. -/
structure PipelineState where
  deadline : Int
  auth : AuthState
  k : Nat
deriving DecidableEq, Repr

deriving instance DecidableEq for Except

/-- The outcome of one `Client._do_with_error_handling` attempt: its
result, the state it leaves, the sends performed, and the successive
values written to the shared throttle deadline (the write happens before
the `ThrottleError` is raised, so it is part of the outcome even on
error). -/
structure AttemptResult where
  result : Except DoError Response
  state : PipelineState
  sends : List SendRecord
  writes : List Int
deriving DecidableEq, Repr

/-- Embeds `Client._do_with_error_handling`: run `doRequest` and classify
the response status. `tnow` is the current time when the `ThrottleError`
is constructed (`datetime.now()` in its constructor). -/
def doWithErrorHandling (oauth : Grant → OAuthResponse)
    (net : Nat → Response) (authed : Bool) (tnow : Int)
    (s : PipelineState) : AttemptResult :=
  match doRequest s.auth oauth net s.k authed with
  | (.error r, k2, log) =>
    { result := .error (.oauthFailed r), state := { s with k := k2 },
      sends := log, writes := [] }
  | (.ok (resp, A2), k2, log) =>
    let s2 : PipelineState := { s with auth := A2, k := k2 }
    if resp.status ≥ 400 then
      if resp.status = 400 then
        { result := .error (.badRequest resp), state := s2, sends := log,
          writes := [] }
      else if resp.status = 401 then
        { result := .error (.authFailed resp), state := s2, sends := log,
          writes := [] }
      else if resp.status = 404 then
        { result := .error (.notFound resp), state := s2, sends := log,
          writes := [] }
      else if resp.status = 429 then
        let ds : Int := resp.retryAfter.getD 30
        let dl : Int := tnow + ds * usPerSec
        { result := .error (.throttle ds dl (some resp)),
          state := { s2 with deadline := dl }, sends := log,
          writes := [dl] }
      else
        { result := .error (.apiError resp), state := s2, sends := log,
          writes := [] }
    else
      { result := .ok resp, state := s2, sends := log, writes := [] }

/-- Discriminates the `except ThrottleError` clause of `Client.do`:
the delay of the caught throttle error, if the result is one. -/
def throttleDelayOf : Except DoError Response → Option Int
  | .error (.throttle ds _ _) => some ds
  | _ => none

/-- Embeds the falsiness test `not self.throttle_max_auto_retry_delay`:
true for `None` and for `0`. -/
def budgetFalsy : Option Int → Bool
  | none => true
  | some v => v == 0

/-- The outcome of one `Client.do` call: its result, final state, sends
performed, sleeps performed, throttle-deadline writes, and the number of
`_do_with_error_handling` attempts. -/
structure DoResult where
  result : Except DoError Response
  state : PipelineState
  sends : List SendRecord
  sleeps : List Int
  writes : List Int
  attempts : Nat
deriving DecidableEq, Repr

/-- Embeds `Client.do`. `budget` is `throttle_max_auto_retry_delay`.
Time oracle: `t0` is `datetime.now()` at the throttle-prevention check,
`t1` the construction time of a throttle error on the first attempt,
`t2` on the retried attempt. `time.sleep` of a negative delay raises
`ValueError` (modelled by `DoError.sleepValueError`). -/
def doEmbed (oauth : Grant → OAuthResponse) (net : Nat → Response)
    (budget : Option Int) (authed : Bool) (t0 t1 t2 : Int)
    (s : PipelineState) : DoResult :=
  let wait := s.deadline - t0
  if 0 < wait then
    let ds := ceilSeconds wait
    { result := .error (.throttle ds (t0 + ds * usPerSec) none),
      state := s, sends := [], sleeps := [], writes := [], attempts := 0 }
  else
    let a1 := doWithErrorHandling oauth net authed t1 s
    match throttleDelayOf a1.result with
    | some ds =>
      if budgetFalsy budget || ds > budget.getD 0 then
        { result := a1.result, state := a1.state, sends := a1.sends,
          sleeps := [], writes := a1.writes, attempts := 1 }
      else if ds < 0 then
        { result := .error (.sleepValueError ds), state := a1.state,
          sends := a1.sends, sleeps := [], writes := a1.writes,
          attempts := 1 }
      else
        let a2 := doWithErrorHandling oauth net authed t2 a1.state
        { result := a2.result, state := a2.state,
          sends := a1.sends ++ a2.sends, sleeps := [ds],
          writes := a1.writes ++ a2.writes, attempts := 2 }
    | none =>
      { result := a1.result, state := a1.state, sends := a1.sends,
        sleeps := [], writes := a1.writes, attempts := 1 }

/-- Embeds `Authenticator.logout`. `revokeStatus` is the status of the
revocation endpoint response (consulted only when a request is sent).
Returns the resulting state (or the status carried by the raised
`APIError`) and whether a network call was performed. -/
def logout (A : AuthState) (revokeStatus : Nat) :
    Except Nat AuthState × Bool :=
  if !truthy A.currentRefresh then
    (.ok A, false)
  else if revokeStatus != 200 then
    (.error revokeStatus, true)
  else
    (.ok { A with currentToken := none, currentRefresh := none }, true)

/-- A page of a list endpoint as read by `Client.iterate`:
`data.get("results", [])` and `data.get("next", None)`. `α` is the type
of the JSON records. -/
structure PageResponse (α : Type) where
  results : Option (List α)
  next : Option String
deriving DecidableEq, Repr

/-- Query parameters as an association list, with the insertion-ordered
`dict.setdefault`: add the key at the end when absent. -/
def setdefault (ps : List (String × Nat)) (key : String) (v : Nat) :
    List (String × Nat) :=
  if (ps.map Prod.fst).contains key then ps else ps ++ [(key, v)]

/-- The loop of `Client.iterate`: request `url` (with `q` as the params
argument of `do`, which is `None` from the second page on), yield the
results, follow the `next` URL. `pages` maps a URL to the page the server
returns for it (none if the request fails, which ends the model run with
none, as an exception would). Fuel bounds the recursion; a run over a
finite chain of pages is independent of any sufficient fuel. Returns the
records yielded in order and the log of `(url, params)` requests. -/
def iterateGo (pages : String → Option (PageResponse α)) :
    Nat → String → Option (List (String × Nat)) →
    Option (List α × List (String × Option (List (String × Nat))))
  | 0, _, _ => none
  | fuel + 1, url, q =>
    match pages url with
    | none => none
    | some page =>
      match page.next with
      | none => some (page.results.getD [], [(url, q)])
      | some nxt =>
        match iterateGo pages fuel nxt none with
        | none => none
        | some (recs, log) =>
          some (page.results.getD [] ++ recs, (url, q) :: log)

/-- Embeds `Client.iterate`: copy the params, default `page_size` to
2500, build the first URL from the resource route (`buildUrl` stands for
`Client._build_url`), and loop. -/
def iterate (buildUrl : String → String)
    (pages : String → Option (PageResponse α)) (fuel : Nat)
    (resource : String) (params : Option (List (String × Nat))) :
    Option (List α × List (String × Option (List (String × Nat)))) :=
  let ps := setdefault (params.getD []) "page_size" 2500
  iterateGo pages fuel (buildUrl resource) (some ps)

/-- States that a list of `(url, page)` pairs is the chain the server
serves: each URL yields its page, each page names the next pair by URL,
and the last page has no next. -/
def pageChain (pages : String → Option (PageResponse α)) :
    List (String × PageResponse α) → Prop
  | [] => True
  | (u, p) :: rest =>
    pages u = some p ∧ p.next = rest.head?.map Prod.fst ∧
      pageChain pages rest

/-! ### Helper lemmas -/

/-- The ceiling division used by the prevent path rounds up to the least
number of whole seconds covering the wait. -/
theorem ceilSeconds_spec (w : Int) :
    w ≤ ceilSeconds w * usPerSec ∧ (ceilSeconds w - 1) * usPerSec < w := by
  unfold ceilSeconds usPerSec
  omega

/-- A response returned by `doRequest` always comes from the network
oracle. -/
theorem doRequest_resp_from_net (A : AuthState) (oauth : Grant → OAuthResponse)
    (net : Nat → Response) (k : Nat) (authed : Bool)
    (resp : Response) (A2 : AuthState)
    (h : (doRequest A oauth net k authed).1 = .ok (resp, A2)) :
    ∃ m, resp = net m := by
  unfold doRequest doRequestRetry at h
  cases authed with
  | false =>
    simp only [Bool.false_eq_true, if_false, Except.ok.injEq, Prod.mk.injEq] at h
    exact ⟨k, h.1.symm⟩
  | true =>
    simp only [if_true] at h
    rcases hg : getToken A oauth false with ⟨res, lg⟩
    rw [hg] at h
    cases res with
    | error r => simp at h
    | ok pr =>
      obtain ⟨tok, A3⟩ := pr
      dsimp only at h
      by_cases h401 : (net k).status = 401
      · rw [if_pos h401] at h
        rcases hg2 : getToken A3 oauth true with ⟨res2, lg2⟩
        rw [hg2] at h
        cases res2 with
        | error r => simp at h
        | ok pr2 =>
          obtain ⟨tok2, A4⟩ := pr2
          simp only [Except.ok.injEq, Prod.mk.injEq] at h
          exact ⟨k + 1, h.1.symm⟩
      · rw [if_neg h401] at h
        simp only [Except.ok.injEq, Prod.mk.injEq] at h
        exact ⟨k, h.1.symm⟩

theorem doWithErrorHandling_writes (oauth : Grant → OAuthResponse)
    (net : Nat → Response) (authed : Bool) (t : Int) (s : PipelineState) :
    ((doWithErrorHandling oauth net authed t s).writes = [] ∧
     (doWithErrorHandling oauth net authed t s).state.deadline = s.deadline ∧
     throttleDelayOf (doWithErrorHandling oauth net authed t s).result = none) ∨
    (∃ m, (net m).status = 429 ∧
      (doWithErrorHandling oauth net authed t s).result =
        .error (.throttle ((net m).retryAfter.getD 30)
          (t + ((net m).retryAfter.getD 30) * usPerSec) (some (net m))) ∧
      (doWithErrorHandling oauth net authed t s).writes =
        [t + ((net m).retryAfter.getD 30) * usPerSec] ∧
      (doWithErrorHandling oauth net authed t s).state.deadline =
        t + ((net m).retryAfter.getD 30) * usPerSec ∧
      throttleDelayOf (doWithErrorHandling oauth net authed t s).result =
        some ((net m).retryAfter.getD 30)) := by
  rcases hdr : doRequest s.auth oauth net s.k authed with ⟨res, k2, lg⟩
  unfold doWithErrorHandling
  rw [hdr]
  cases res with
  | error r =>
    left
    exact ⟨rfl, rfl, rfl⟩
  | ok pr =>
    obtain ⟨resp, A2⟩ := pr
    have hnet : ∃ m, resp = net m :=
      doRequest_resp_from_net s.auth oauth net s.k authed resp A2 (by rw [hdr])
    dsimp only
    by_cases h400 : resp.status ≥ 400
    · rw [if_pos h400]
      by_cases he400 : resp.status = 400
      · rw [if_pos he400]
        left; exact ⟨rfl, rfl, rfl⟩
      · rw [if_neg he400]
        by_cases he401 : resp.status = 401
        · rw [if_pos he401]
          left; exact ⟨rfl, rfl, rfl⟩
        · rw [if_neg he401]
          by_cases he404 : resp.status = 404
          · rw [if_pos he404]
            left; exact ⟨rfl, rfl, rfl⟩
          · rw [if_neg he404]
            by_cases he429 : resp.status = 429
            · rw [if_pos he429]
              right
              obtain ⟨m, hm⟩ := hnet
              subst hm
              exact ⟨m, he429, rfl, rfl, rfl, rfl⟩
            · rw [if_neg he429]
              left; exact ⟨rfl, rfl, rfl⟩
    · rw [if_neg h400]
      left; exact ⟨rfl, rfl, rfl⟩

/-- C2: a call to `do()` made strictly before the stored throttle
deadline performs no network send and no request-handling attempt, and
raises a throttle error (with no attached response) whose delay is the
remaining wait, deadline minus now, rounded up to whole seconds: it is
the least whole number of seconds covering the wait. -/
theorem C2_prevent_fails_fast (oauth : Grant → OAuthResponse)
    (net : Nat → Response) (budget : Option Int) (authed : Bool)
    (t0 t1 t2 : Int) (s : PipelineState) (h : t0 < s.deadline) :
    (doEmbed oauth net budget authed t0 t1 t2 s).sends = [] ∧
    (doEmbed oauth net budget authed t0 t1 t2 s).attempts = 0 ∧
    (doEmbed oauth net budget authed t0 t1 t2 s).result =
      .error (.throttle (ceilSeconds (s.deadline - t0))
        (t0 + ceilSeconds (s.deadline - t0) * usPerSec) none) ∧
    s.deadline - t0 ≤ ceilSeconds (s.deadline - t0) * usPerSec ∧
    (ceilSeconds (s.deadline - t0) - 1) * usPerSec < s.deadline - t0 := by
  have hw : 0 < s.deadline - t0 := by omega
  unfold doEmbed
  rw [if_pos hw]
  exact ⟨rfl, rfl, rfl, (ceilSeconds_spec _).1, (ceilSeconds_spec _).2⟩

theorem C2_witness :
    (0 : Int) < 1500000 ∧
    ((doEmbed (fun _ => ⟨200, "t", "r"⟩) (fun _ => ⟨200, none⟩) none false
        0 0 0 ⟨1500000, ⟨some "u", none, none, none⟩, 0⟩).sends = [] ∧
     (doEmbed (fun _ => ⟨200, "t", "r"⟩) (fun _ => ⟨200, none⟩) none false
        0 0 0 ⟨1500000, ⟨some "u", none, none, none⟩, 0⟩).attempts = 0 ∧
     (doEmbed (fun _ => ⟨200, "t", "r"⟩) (fun _ => ⟨200, none⟩) none false
        0 0 0 ⟨1500000, ⟨some "u", none, none, none⟩, 0⟩).result =
       .error (.throttle (ceilSeconds (1500000 - 0))
         (0 + ceilSeconds (1500000 - 0) * usPerSec) none) ∧
     (1500000 : Int) - 0 ≤ ceilSeconds (1500000 - 0) * usPerSec ∧
     (ceilSeconds (1500000 - 0) - 1) * usPerSec < 1500000 - 0) :=
  ⟨by decide,
   C2_prevent_fails_fast (fun _ => ⟨200, "t", "r"⟩) (fun _ => ⟨200, none⟩)
     none false 0 0 0 ⟨1500000, ⟨some "u", none, none, none⟩, 0⟩ (by decide)⟩

/-- C10: a throttle error synthesized by the local prevention check
propagates immediately to the caller of `do()` with no sleep and no
request-handling attempt, whatever auto-retry budget is configured, and
it carries no server response. -/
theorem C10_prevent_never_retried (oauth : Grant → OAuthResponse)
    (net : Nat → Response) (budget : Option Int) (authed : Bool)
    (t0 t1 t2 : Int) (s : PipelineState) (h : t0 < s.deadline) :
    (doEmbed oauth net budget authed t0 t1 t2 s).sleeps = [] ∧
    (doEmbed oauth net budget authed t0 t1 t2 s).attempts = 0 ∧
    (doEmbed oauth net budget authed t0 t1 t2 s).state = s ∧
    (doEmbed oauth net budget authed t0 t1 t2 s).result =
      .error (.throttle (ceilSeconds (s.deadline - t0))
        (t0 + ceilSeconds (s.deadline - t0) * usPerSec) none) := by
  have hw : 0 < s.deadline - t0 := by omega
  unfold doEmbed
  rw [if_pos hw]
  exact ⟨rfl, rfl, rfl, rfl⟩

theorem C10_witness :
    (0 : Int) < 2000000 ∧
    ((doEmbed (fun _ => ⟨200, "t", "r"⟩) (fun _ => ⟨200, none⟩) (some 60)
        false 0 0 0 ⟨2000000, ⟨some "u", none, none, none⟩, 0⟩).sleeps = [] ∧
     (doEmbed (fun _ => ⟨200, "t", "r"⟩) (fun _ => ⟨200, none⟩) (some 60)
        false 0 0 0 ⟨2000000, ⟨some "u", none, none, none⟩, 0⟩).attempts = 0 ∧
     (doEmbed (fun _ => ⟨200, "t", "r"⟩) (fun _ => ⟨200, none⟩) (some 60)
        false 0 0 0 ⟨2000000, ⟨some "u", none, none, none⟩, 0⟩).state =
       ⟨2000000, ⟨some "u", none, none, none⟩, 0⟩ ∧
     (doEmbed (fun _ => ⟨200, "t", "r"⟩) (fun _ => ⟨200, none⟩) (some 60)
        false 0 0 0 ⟨2000000, ⟨some "u", none, none, none⟩, 0⟩).result =
       .error (.throttle (ceilSeconds (2000000 - 0))
         (0 + ceilSeconds (2000000 - 0) * usPerSec) none)) :=
  ⟨by decide,
   C10_prevent_never_retried (fun _ => ⟨200, "t", "r"⟩) (fun _ => ⟨200, none⟩)
     (some 60) false 0 0 0 ⟨2000000, ⟨some "u", none, none, none⟩, 0⟩ (by decide)⟩

/-- C3 (amended): when request handling raises a throttle error and no
auto-retry budget is configured (None or 0), or the delay exceeds the
budget, the error propagates with no sleep and no further attempt; when
a budget is configured and the delay is non-negative and within it,
`do()` sleeps that delay and retries the full request-handling sequence
exactly once, returning whatever the retried attempt produces, a
throttle error included, with no further retry. (A negative delay within
the budget instead raises ValueError from `time.sleep`, see the
counterexample.) -/
theorem C3_throttle_retry_policy (oauth : Grant → OAuthResponse)
    (net : Nat → Response) (budget : Option Int) (authed : Bool)
    (t0 t1 t2 : Int) (s : PipelineState) (ds dl : Int)
    (src : Option Response)
    (hpass : s.deadline ≤ t0)
    (h1 : (doWithErrorHandling oauth net authed t1 s).result =
      .error (.throttle ds dl src)) :
    (budgetFalsy budget = true →
      (doEmbed oauth net budget authed t0 t1 t2 s).result =
        .error (.throttle ds dl src) ∧
      (doEmbed oauth net budget authed t0 t1 t2 s).sleeps = [] ∧
      (doEmbed oauth net budget authed t0 t1 t2 s).attempts = 1) ∧
    (∀ b, budget = some b → b ≠ 0 → b < ds →
      (doEmbed oauth net budget authed t0 t1 t2 s).result =
        .error (.throttle ds dl src) ∧
      (doEmbed oauth net budget authed t0 t1 t2 s).sleeps = [] ∧
      (doEmbed oauth net budget authed t0 t1 t2 s).attempts = 1) ∧
    (∀ b, budget = some b → b ≠ 0 → ds ≤ b → 0 ≤ ds →
      (doEmbed oauth net budget authed t0 t1 t2 s).sleeps = [ds] ∧
      (doEmbed oauth net budget authed t0 t1 t2 s).attempts = 2 ∧
      (doEmbed oauth net budget authed t0 t1 t2 s).result =
        (doWithErrorHandling oauth net authed t2
          (doWithErrorHandling oauth net authed t1 s).state).result) := by
  have hw : ¬ 0 < s.deadline - t0 := by omega
  unfold doEmbed
  rw [if_neg hw]
  simp only [h1, throttleDelayOf]
  refine ⟨?_, ?_, ?_⟩
  · intro hb
    rw [if_pos (by simp [hb])]
    exact ⟨rfl, rfl, rfl⟩
  · intro b hb hb0 hlt
    subst hb
    rw [if_pos (by simp only [budgetFalsy, Bool.or_eq_true, beq_iff_eq,
      decide_eq_true_eq, Option.getD_some]; omega)]
    exact ⟨rfl, rfl, rfl⟩
  · intro b hb hb0 hle hnn
    subst hb
    rw [if_neg (by simp only [budgetFalsy, Bool.or_eq_true, beq_iff_eq,
      decide_eq_true_eq, Option.getD_some]; omega), if_neg (by omega)]
    exact ⟨rfl, rfl, rfl⟩

theorem C3_witness :
    ((0 : Int) ≤ 0) ∧
    ((doEmbed (fun _ => ⟨200, "t", "r"⟩)
        (fun n => if n = 0 then ⟨429, some 10⟩ else ⟨200, none⟩) (some 60)
        false 0 0 11000000 ⟨0, ⟨some "u", none, none, none⟩, 0⟩).sleeps = [10] ∧
     (doEmbed (fun _ => ⟨200, "t", "r"⟩)
        (fun n => if n = 0 then ⟨429, some 10⟩ else ⟨200, none⟩) (some 60)
        false 0 0 11000000 ⟨0, ⟨some "u", none, none, none⟩, 0⟩).attempts = 2 ∧
     (doEmbed (fun _ => ⟨200, "t", "r"⟩)
        (fun n => if n = 0 then ⟨429, some 10⟩ else ⟨200, none⟩) (some 60)
        false 0 0 11000000 ⟨0, ⟨some "u", none, none, none⟩, 0⟩).result =
       (doWithErrorHandling (fun _ => ⟨200, "t", "r"⟩)
         (fun n => if n = 0 then ⟨429, some 10⟩ else ⟨200, none⟩) false 11000000
         (doWithErrorHandling (fun _ => ⟨200, "t", "r"⟩)
           (fun n => if n = 0 then ⟨429, some 10⟩ else ⟨200, none⟩) false 0
           ⟨0, ⟨some "u", none, none, none⟩, 0⟩).state).result) :=
  ⟨le_refl 0,
   (C3_throttle_retry_policy (fun _ => ⟨200, "t", "r"⟩)
      (fun n => if n = 0 then ⟨429, some 10⟩ else ⟨200, none⟩) (some 60) false
      0 0 11000000 ⟨0, ⟨some "u", none, none, none⟩, 0⟩ 10 10000000
      (some ⟨429, some 10⟩) (by decide) (by decide)).2.2 60 rfl (by decide)
      (by decide) (by decide)⟩

/-- C3 counterexample: with an auto-retry budget of 60 configured and a
throttle error whose delay is -5 (from a 429 with header Retry-After -5),
the delay does not exceed the budget, yet `do()` neither sleeps-and-
retries nor propagates the throttle error: `time.sleep(-5)` raises
ValueError after a single attempt. -/
theorem C3_counterexample :
    (doWithErrorHandling (fun _ => ⟨200, "t", "r"⟩)
      (fun _ => ⟨429, some (-5)⟩) false 0
      ⟨0, ⟨some "u", none, none, none⟩, 0⟩).result =
      .error (.throttle (-5) (-5000000) (some ⟨429, some (-5)⟩)) ∧
    ¬ ((-5 : Int) > 60) ∧
    (doEmbed (fun _ => ⟨200, "t", "r"⟩) (fun _ => ⟨429, some (-5)⟩)
      (some 60) false 0 0 0 ⟨0, ⟨some "u", none, none, none⟩, 0⟩).result =
      .error (.sleepValueError (-5)) ∧
    (doEmbed (fun _ => ⟨200, "t", "r"⟩) (fun _ => ⟨429, some (-5)⟩)
      (some 60) false 0 0 0 ⟨0, ⟨some "u", none, none, none⟩, 0⟩).sleeps = [] ∧
    (doEmbed (fun _ => ⟨200, "t", "r"⟩) (fun _ => ⟨429, some (-5)⟩)
      (some 60) false 0 0 0 ⟨0, ⟨some "u", none, none, none⟩, 0⟩).attempts = 1 := by
  decide

/-- C8 (amended): within one `do()` call entered at `t0` with the first
attempt classifying at `t1` and the retried attempt at `t2` (which lies
after the sleep, as `time.sleep` guarantees), and with every
server-supplied Retry-After delay non-negative, every write to the
shared throttle deadline is no earlier than the previous value: the
written values form a non-decreasing chain starting at the stored
deadline, and the final deadline is no earlier than the initial one.
(The code never clears the deadline, so the clearing exception of the
claim is vacuous.) -/
theorem C8_deadline_monotone (oauth : Grant → OAuthResponse)
    (net : Nat → Response) (budget : Option Int) (authed : Bool)
    (t0 t1 t2 : Int) (s : PipelineState)
    (hnn : ∀ n v, (net n).retryAfter = some v → 0 ≤ v)
    (h01 : t0 ≤ t1)
    (h12 : ∀ ds, throttleDelayOf
        (doWithErrorHandling oauth net authed t1 s).result = some ds →
      t1 + ds * usPerSec ≤ t2) :
    List.Chain (fun a b => a ≤ b) s.deadline
      (doEmbed oauth net budget authed t0 t1 t2 s).writes ∧
    s.deadline ≤ (doEmbed oauth net budget authed t0 t1 t2 s).state.deadline := by
  have hds : ∀ m, (0 : Int) ≤ (net m).retryAfter.getD 30 := by
    intro m
    cases hr : (net m).retryAfter with
    | none => simp
    | some v => simpa using hnn m v hr
  by_cases hw : 0 < s.deadline - t0
  · unfold doEmbed
    rw [if_pos hw]
    exact ⟨List.Chain.nil, le_refl _⟩
  · have hpass : s.deadline ≤ t0 := by omega
    unfold doEmbed
    rw [if_neg hw]
    rcases doWithErrorHandling_writes oauth net authed t1 s with
      ⟨hw1, hd1, ht1⟩ | ⟨m, _, _, hwr, hdl, htd⟩
    · simp only [ht1]
      rw [hw1, hd1]
      exact ⟨List.Chain.nil, le_refl _⟩
    · simp only [htd]
      have hle1 : s.deadline ≤ t1 + (net m).retryAfter.getD 30 * usPerSec := by
        have := hds m
        unfold usPerSec
        nlinarith [hds m]
      by_cases hcond : (budgetFalsy budget ||
          decide ((net m).retryAfter.getD 30 > budget.getD 0)) = true
      · rw [if_pos hcond]
        rw [hwr, hdl]
        exact ⟨List.Chain.cons hle1 List.Chain.nil, hle1⟩
      · rw [if_neg hcond, if_neg (by have := hds m; omega)]
        have h2 : t1 + (net m).retryAfter.getD 30 * usPerSec ≤ t2 :=
          h12 _ htd
        rcases doWithErrorHandling_writes oauth net authed t2
            (doWithErrorHandling oauth net authed t1 s).state with
          ⟨hw2, hd2, _⟩ | ⟨m2, _, _, hwr2, hdl2, _⟩
        · constructor
          · dsimp only
            rw [hwr, hw2]
            exact List.Chain.cons hle1 List.Chain.nil
          · dsimp only
            rw [hd2, hdl]
            exact hle1
        · have hle2 : t1 + (net m).retryAfter.getD 30 * usPerSec ≤
              t2 + (net m2).retryAfter.getD 30 * usPerSec := by
            have := hds m2
            unfold usPerSec at *
            nlinarith
          constructor
          · dsimp only
            rw [hwr, hwr2]
            exact List.Chain.cons hle1 (List.Chain.cons hle2 List.Chain.nil)
          · dsimp only
            rw [hdl2]
            exact le_trans hle1 hle2

theorem C8_witness :
    List.Chain (fun a b => a ≤ b) (0 : Int)
      (doEmbed (fun _ => ⟨200, "t", "r"⟩) (fun _ => ⟨429, some 10⟩) none
        false 0 0 10000000 ⟨0, ⟨some "u", none, none, none⟩, 0⟩).writes ∧
    (0 : Int) ≤
      (doEmbed (fun _ => ⟨200, "t", "r"⟩) (fun _ => ⟨429, some 10⟩) none
        false 0 0 10000000 ⟨0, ⟨some "u", none, none, none⟩, 0⟩).state.deadline :=
  C8_deadline_monotone (fun _ => ⟨200, "t", "r"⟩) (fun _ => ⟨429, some 10⟩)
    none false 0 0 10000000 ⟨0, ⟨some "u", none, none, none⟩, 0⟩
    (by intro n v h; simp only [Option.some.injEq] at h; omega)
    (le_refl 0)
    (by
      intro ds h
      rw [show throttleDelayOf
          (doWithErrorHandling (fun _ => ⟨200, "t", "r"⟩)
            (fun _ => ⟨429, some 10⟩) false 0
            ⟨0, ⟨some "u", none, none, none⟩, 0⟩).result = some (10 : Int)
          from by decide] at h
      rw [Option.some.injEq] at h
      unfold usPerSec
      omega)

/-- C8 counterexample: a 429 response carrying the header Retry-After -5
(parsed by int() to -5) makes the classification write a deadline five
seconds in the past: with the stored deadline at 0 and the current time
at 0, the write is -5000000 microseconds, strictly earlier than the
previous value, so the written values are not non-decreasing. -/
theorem C8_counterexample :
    (doEmbed (fun _ => ⟨200, "t", "r"⟩) (fun _ => ⟨429, some (-5)⟩) none
      false 0 0 0 ⟨0, ⟨some "u", none, none, none⟩, 0⟩).writes =
      [-5000000] ∧
    ¬ List.Chain (fun a b => a ≤ b) (0 : Int)
      (doEmbed (fun _ => ⟨200, "t", "r"⟩) (fun _ => ⟨429, some (-5)⟩) none
        false 0 0 0 ⟨0, ⟨some "u", none, none, none⟩, 0⟩).writes ∧
    (doEmbed (fun _ => ⟨200, "t", "r"⟩) (fun _ => ⟨429, some (-5)⟩) none
      false 0 0 0 ⟨0, ⟨some "u", none, none, none⟩, 0⟩).state.deadline < 0 := by
  refine ⟨by decide, ?_, by decide⟩
  intro h
  rw [show (doEmbed (fun _ => ⟨200, "t", "r"⟩) (fun _ => ⟨429, some (-5)⟩) none
      false 0 0 0 ⟨0, ⟨some "u", none, none, none⟩, 0⟩).writes =
      [-5000000] from by decide] at h
  exact absurd (List.chain_cons.mp h).1 (by decide)

/-- C4: whenever the executor hands back a response with status 429, the
classification raises a throttle error whose delay is the integer value
of the Retry-After header when present and 30 seconds otherwise, and the
shared throttle deadline is set to now plus that delay (in the state in
which the error is raised, the write preceding the raise in the source). -/
theorem C4_429_sets_deadline (oauth : Grant → OAuthResponse)
    (net : Nat → Response) (authed : Bool) (tnow : Int) (s : PipelineState)
    (resp : Response) (A2 : AuthState) (k2 : Nat) (lg : List SendRecord)
    (h : doRequest s.auth oauth net s.k authed = (.ok (resp, A2), k2, lg))
    (h429 : resp.status = 429) :
    (doWithErrorHandling oauth net authed tnow s).result =
      .error (.throttle (resp.retryAfter.getD 30)
        (tnow + resp.retryAfter.getD 30 * usPerSec) (some resp)) ∧
    (doWithErrorHandling oauth net authed tnow s).state.deadline =
      tnow + resp.retryAfter.getD 30 * usPerSec ∧
    (doWithErrorHandling oauth net authed tnow s).writes =
      [tnow + resp.retryAfter.getD 30 * usPerSec] ∧
    (∀ v, resp.retryAfter = some v → resp.retryAfter.getD 30 = v) ∧
    (resp.retryAfter = none → resp.retryAfter.getD 30 = 30) := by
  unfold doWithErrorHandling
  rw [h]
  dsimp only
  rw [if_pos (by omega), if_neg (by omega), if_neg (by omega),
    if_neg (by omega), if_pos h429]
  refine ⟨rfl, rfl, rfl, ?_, ?_⟩
  · intro v hv
    rw [hv]
    rfl
  · intro hv
    rw [hv]
    rfl

theorem C4_witness :
    doRequest ⟨some "u", none, some "tok", none⟩ (fun _ => ⟨200, "t", "r"⟩)
      (fun _ => ⟨429, some 7⟩) 0 false =
      (.ok (⟨429, some 7⟩, ⟨some "u", none, some "tok", none⟩), 1,
        [{ bearer := none, forced := false }]) ∧
    (doWithErrorHandling (fun _ => ⟨200, "t", "r"⟩) (fun _ => ⟨429, some 7⟩)
        false 3 ⟨0, ⟨some "u", none, some "tok", none⟩, 0⟩).result =
      .error (.throttle ((⟨429, some 7⟩ : Response).retryAfter.getD 30)
        (3 + (⟨429, some 7⟩ : Response).retryAfter.getD 30 * usPerSec)
        (some ⟨429, some 7⟩)) ∧
    (doWithErrorHandling (fun _ => ⟨200, "t", "r"⟩) (fun _ => ⟨429, some 7⟩)
        false 3 ⟨0, ⟨some "u", none, some "tok", none⟩, 0⟩).state.deadline =
      3 + (⟨429, some 7⟩ : Response).retryAfter.getD 30 * usPerSec ∧
    (doWithErrorHandling (fun _ => ⟨200, "t", "r"⟩) (fun _ => ⟨429, some 7⟩)
        false 3 ⟨0, ⟨some "u", none, some "tok", none⟩, 0⟩).writes =
      [3 + (⟨429, some 7⟩ : Response).retryAfter.getD 30 * usPerSec] :=
  ⟨by decide,
   (C4_429_sets_deadline (fun _ => ⟨200, "t", "r"⟩) (fun _ => ⟨429, some 7⟩)
     false 3 ⟨0, ⟨some "u", none, some "tok", none⟩, 0⟩ ⟨429, some 7⟩
     ⟨some "u", none, some "tok", none⟩ 1 [{ bearer := none, forced := false }]
     (by decide) rfl).1,
   (C4_429_sets_deadline (fun _ => ⟨200, "t", "r"⟩) (fun _ => ⟨429, some 7⟩)
     false 3 ⟨0, ⟨some "u", none, some "tok", none⟩, 0⟩ ⟨429, some 7⟩
     ⟨some "u", none, some "tok", none⟩ 1 [{ bearer := none, forced := false }]
     (by decide) rfl).2.1,
   (C4_429_sets_deadline (fun _ => ⟨200, "t", "r"⟩) (fun _ => ⟨429, some 7⟩)
     false 3 ⟨0, ⟨some "u", none, some "tok", none⟩, 0⟩ ⟨429, some 7⟩
     ⟨some "u", none, some "tok", none⟩ 1 [{ bearer := none, forced := false }]
     (by decide) rfl).2.2.1⟩

/-- C1: for an authenticated request whose first send returns 401, the
executor resends exactly once, forcing the token store to refetch the
token for the resent request (the second send carries the token returned
by the forced `get_token` call, with the forced flag), and hands back
the second response; if that second response is again 401, the
classification raises an authentication error after exactly two sends,
with no third attempt; a non-401 first response, or a non-authenticated
request whatever its status, is sent exactly once with no retry at this
layer. The hypotheses state that the two token fetches succeed — when a
fetch fails, its authentication error preempts the send entirely. -/
theorem C1_401_retry_once (A : AuthState) (oauth : Grant → OAuthResponse)
    (net : Nat → Response) (k : Nat) (t : Int) (dl : Int)
    (tok tok2 : String) (A2 A3 : AuthState) (lg lg2 : List TokenReq)
    (hG : getToken A oauth false = (.ok (tok, A2), lg))
    (hG2 : getToken A2 oauth true = (.ok (tok2, A3), lg2)) :
    ((net k).status = 401 →
      doRequest A oauth net k true =
        (.ok (net (k + 1), A3), k + 1 + 1,
         [{ bearer := some tok, forced := false },
          { bearer := some tok2, forced := true }])) ∧
    ((net k).status = 401 → (net (k + 1)).status = 401 →
      (doWithErrorHandling oauth net true t ⟨dl, A, k⟩).result =
        .error (.authFailed (net (k + 1))) ∧
      (doWithErrorHandling oauth net true t ⟨dl, A, k⟩).state.k = k + 1 + 1) ∧
    ((net k).status ≠ 401 →
      doRequest A oauth net k true =
        (.ok (net k, A2), k + 1,
         [{ bearer := some tok, forced := false }])) ∧
    (doRequest A oauth net k false =
      (.ok (net k, A), k + 1, [{ bearer := none, forced := false }])) := by
  have hdr401 : (net k).status = 401 →
      doRequest A oauth net k true =
        (.ok (net (k + 1), A3), k + 1 + 1,
         [{ bearer := some tok, forced := false },
          { bearer := some tok2, forced := true }]) := by
    intro h401
    unfold doRequest doRequestRetry
    rw [hG]
    dsimp only
    rw [if_pos h401, hG2]
    rfl
  refine ⟨hdr401, ?_, ?_, ?_⟩
  · intro h401 h401b
    unfold doWithErrorHandling
    dsimp only
    rw [hdr401 h401]
    dsimp only
    rw [if_pos (by omega), if_neg (by omega), if_pos h401b]
    exact ⟨rfl, rfl⟩
  · intro hne
    unfold doRequest
    rw [hG]
    dsimp only
    rw [if_neg hne]
    rfl
  · rfl

theorem C1_witness :
    doRequest ⟨some "u", some "p", some "tok", some "ref"⟩
      (fun _ => ⟨200, "newtok", "newref"⟩) (fun _ => ⟨401, none⟩) 0 true =
      (.ok (⟨401, none⟩,
        ⟨some "u", some "p", some "newtok", some "newref"⟩), 2,
       [{ bearer := some "tok", forced := false },
        { bearer := some "newtok", forced := true }]) ∧
    (doWithErrorHandling (fun _ => ⟨200, "newtok", "newref"⟩)
      (fun _ => ⟨401, none⟩) true 0
      ⟨0, ⟨some "u", some "p", some "tok", some "ref"⟩, 0⟩).result =
      .error (.authFailed ⟨401, none⟩) :=
  ⟨(C1_401_retry_once ⟨some "u", some "p", some "tok", some "ref"⟩
      (fun _ => ⟨200, "newtok", "newref"⟩) (fun _ => ⟨401, none⟩) 0 0 0
      "tok" "newtok" ⟨some "u", some "p", some "tok", some "ref"⟩
      ⟨some "u", some "p", some "newtok", some "newref"⟩ []
      [.refreshGrant "ref"] (by decide) (by decide)).1 rfl,
   ((C1_401_retry_once ⟨some "u", some "p", some "tok", some "ref"⟩
      (fun _ => ⟨200, "newtok", "newref"⟩) (fun _ => ⟨401, none⟩) 0 0 0
      "tok" "newtok" ⟨some "u", some "p", some "tok", some "ref"⟩
      ⟨some "u", some "p", some "newtok", some "newref"⟩ []
      [.refreshGrant "ref"] (by decide) (by decide)).2.1 rfl rfl).1⟩

/-- C5: the authentication algorithm of the token store. When a refresh
token is known, a refresh_token grant is tried first: a 200 adopts the
returned access/refresh pair and ends the attempt after that single
request; a non-200 with no username configured raises an authentication
error carrying that response; with a username configured, a password
grant with the configured username and password is tried next, whose 200
adopts the returned pair and whose non-200 raises an authentication
error carrying that response. Without a known refresh token only the
password grant is tried, with the same two outcomes. -/
theorem C5_auth_algorithm (A : AuthState) (oauth : Grant → OAuthResponse) :
    (truthy A.currentRefresh = true →
      ((oauth Grant.refreshTok).status = 200 →
        authenticate A oauth =
          (.ok { A with
              currentToken := some (oauth Grant.refreshTok).accessToken,
              currentRefresh := some (oauth Grant.refreshTok).refreshToken },
           [.refreshGrant (strOpt A.currentRefresh)])) ∧
      ((oauth Grant.refreshTok).status ≠ 200 → truthy A.username = false →
        authenticate A oauth =
          (.error (oauth Grant.refreshTok),
           [.refreshGrant (strOpt A.currentRefresh)])) ∧
      ((oauth Grant.refreshTok).status ≠ 200 → truthy A.username = true →
        ((oauth Grant.password).status = 200 →
          authenticate A oauth =
            (.ok { A with
                currentToken := some (oauth Grant.password).accessToken,
                currentRefresh := some (oauth Grant.password).refreshToken },
             [.refreshGrant (strOpt A.currentRefresh),
              .passwordGrant (strOpt A.username) (A.password.getD "")])) ∧
        ((oauth Grant.password).status ≠ 200 →
          authenticate A oauth =
            (.error (oauth Grant.password),
             [.refreshGrant (strOpt A.currentRefresh),
              .passwordGrant (strOpt A.username) (A.password.getD "")])))) ∧
    (truthy A.currentRefresh = false →
      ((oauth Grant.password).status = 200 →
        authenticate A oauth =
          (.ok { A with
              currentToken := some (oauth Grant.password).accessToken,
              currentRefresh := some (oauth Grant.password).refreshToken },
           [.passwordGrant (strOpt A.username) (A.password.getD "")])) ∧
      ((oauth Grant.password).status ≠ 200 →
        authenticate A oauth =
          (.error (oauth Grant.password),
           [.passwordGrant (strOpt A.username) (A.password.getD "")]))) := by
  constructor
  · intro hRef
    refine ⟨?_, ?_, ?_⟩
    · intro h200
      unfold authenticate
      rw [if_pos hRef, if_pos h200]
    · intro h200 hU
      unfold authenticate
      rw [if_pos hRef, if_neg h200, if_pos (by simp [hU])]
    · intro h200 hU
      constructor
      · intro hp
        unfold authenticate
        rw [if_pos hRef, if_neg h200, if_neg (by simp [hU]),
          if_neg (by simp [hp])]
      · intro hp
        unfold authenticate
        rw [if_pos hRef, if_neg h200, if_neg (by simp [hU]),
          if_pos (by simp [hp])]
  · intro hRef
    constructor
    · intro hp
      unfold authenticate
      rw [if_neg (by simp [hRef]), if_neg (by simp [hp])]
    · intro hp
      unfold authenticate
      rw [if_neg (by simp [hRef]), if_pos (by simp [hp])]

theorem C5_witness :
    truthy (some "ref") = true ∧
    (((fun g => match g with
        | Grant.refreshTok => (⟨200, "at", "rt"⟩ : OAuthResponse)
        | Grant.password => ⟨400, "x", "y"⟩) Grant.refreshTok).status = 200) ∧
    authenticate ⟨some "u", some "p", none, some "ref"⟩
      (fun g => match g with
        | Grant.refreshTok => (⟨200, "at", "rt"⟩ : OAuthResponse)
        | Grant.password => ⟨400, "x", "y"⟩) =
      (.ok ⟨some "u", some "p", some "at", some "rt"⟩,
       [.refreshGrant "ref"]) :=
  ⟨by decide, rfl,
   ((C5_auth_algorithm ⟨some "u", some "p", none, some "ref"⟩
      (fun g => match g with
        | Grant.refreshTok => (⟨200, "at", "rt"⟩ : OAuthResponse)
        | Grant.password => ⟨400, "x", "y"⟩)).1 (by decide)).1 rfl⟩

/-- C7 (amended): `logout` is a no-op, with no network call and no
error, when no truthy refresh token is held; with one, it calls the
revocation endpoint and raises an API error when the response status is
not exactly 200 — including 2xx success statuses other than 200, such as
204 — and on a 200 response clears both the access and refresh tokens. -/
theorem C7_logout_behavior (A : AuthState) (st : Nat) :
    (truthy A.currentRefresh = false → logout A st = (.ok A, false)) ∧
    (truthy A.currentRefresh = true → st ≠ 200 →
      logout A st = (.error st, true)) ∧
    (truthy A.currentRefresh = true → st = 200 →
      logout A st =
        (.ok { A with currentToken := none, currentRefresh := none }, true)) := by
  refine ⟨?_, ?_, ?_⟩
  · intro hRef
    unfold logout
    rw [if_pos (by simp [hRef])]
  · intro hRef hst
    unfold logout
    rw [if_neg (by simp [hRef]), if_pos (by simp [hst])]
  · intro hRef hst
    unfold logout
    rw [if_neg (by simp [hRef]), if_neg (by simp [hst])]

theorem C7_witness :
    truthy (some "r") = true ∧ (200 : Nat) = 200 ∧
    logout ⟨some "u", none, some "t", some "r"⟩ 200 =
      (.ok ⟨some "u", none, none, none⟩, true) :=
  ⟨by decide, rfl,
   (C7_logout_behavior ⟨some "u", none, some "t", some "r"⟩ 200).2.2
     (by decide) rfl⟩

/-- C7 counterexample: a 204 revocation response is a 2xx success, yet
`logout` raises an API error because the source tests for status 200
exactly. -/
theorem C7_counterexample :
    logout ⟨some "u", none, some "t", some "r"⟩ 204 = (.error 204, true) ∧
    200 ≤ 204 ∧ 204 < 300 := by
  decide

/-- A send record carries a present, non-empty bearer token. -/
def bearerPresent (r : SendRecord) : Bool :=
  match r.bearer with
  | some t => t != ""
  | none => false

/-- A successful authentication always stores an access token coming
from the OAuth endpoint. -/
theorem authenticate_ok_token (A : AuthState) (oauth : Grant → OAuthResponse)
    (A2 : AuthState) (lg : List TokenReq)
    (h : authenticate A oauth = (.ok A2, lg)) :
    ∃ g, A2.currentToken = some (oauth g).accessToken := by
  unfold authenticate at h
  by_cases hr : truthy A.currentRefresh
  · rw [if_pos hr] at h
    by_cases h200 : (oauth Grant.refreshTok).status = 200
    · rw [if_pos h200] at h
      simp only [Prod.mk.injEq, Except.ok.injEq] at h
      exact ⟨Grant.refreshTok, by rw [← h.1]⟩
    · rw [if_neg h200] at h
      by_cases hU : truthy A.username
      · rw [if_neg (by simp [hU])] at h
        by_cases hp : (oauth Grant.password).status = 200
        · rw [if_neg (by simp [hp])] at h
          simp only [Prod.mk.injEq, Except.ok.injEq] at h
          exact ⟨Grant.password, by rw [← h.1]⟩
        · rw [if_pos (by simp [hp])] at h
          simp at h
      · rw [if_pos (by simp [hU])] at h
        simp at h
  · rw [if_neg hr] at h
    by_cases hp : (oauth Grant.password).status = 200
    · rw [if_neg (by simp [hp])] at h
      simp only [Prod.mk.injEq, Except.ok.injEq] at h
      exact ⟨Grant.password, by rw [← h.1]⟩
    · rw [if_pos (by simp [hp])] at h
      simp at h

/-- When every access token the OAuth endpoint returns is non-empty,
`get_token` never hands back an empty string. -/
theorem getToken_token_ne (A : AuthState) (oauth : Grant → OAuthResponse)
    (force : Bool) (hne : ∀ g, (oauth g).accessToken ≠ "")
    (tok : String) (A2 : AuthState) (lg : List TokenReq)
    (h : getToken A oauth force = (.ok (tok, A2), lg)) : tok ≠ "" := by
  unfold getToken at h
  by_cases hc : (!truthy A.currentToken || force) = true
  · rw [if_pos hc] at h
    rcases ha : authenticate A oauth with ⟨res, lg2⟩
    rw [ha] at h
    cases res with
    | error r => simp at h
    | ok A3 =>
      dsimp only at h
      simp only [Prod.mk.injEq, Except.ok.injEq] at h
      obtain ⟨⟨htok, hA⟩, hlg⟩ := h
      obtain ⟨g, hg⟩ := authenticate_ok_token A oauth A3 lg2 ha
      rw [← htok, hg]
      exact hne g
  · rw [if_neg hc] at h
    simp only [Prod.mk.injEq, Except.ok.injEq] at h
    obtain ⟨⟨htok, hA⟩, hlg⟩ := h
    have ht : truthy A.currentToken = true := by
      cases hx : truthy A.currentToken with
      | false => exact absurd (by simp [hx]) hc
      | true => rfl
    cases hA0 : A.currentToken with
    | none => rw [hA0] at ht; simp [truthy] at ht
    | some sx =>
      rw [hA0] at ht
      have hsx : sx ≠ "" := by simpa [truthy] using ht
      rw [← htok, hA0]
      simpa [strOpt] using hsx

/-- C9 (amended): every send of an authenticated request carries the
bearer token the token store returned (the attached header is the string
"Bearer " followed by it, per `_do_request`); provided every access
token the OAuth server returns is non-empty, that token is a present,
non-empty string on every send that reaches the network. -/
theorem C9_bearer_nonempty (A : AuthState) (oauth : Grant → OAuthResponse)
    (net : Nat → Response) (k : Nat)
    (hne : ∀ g, (oauth g).accessToken ≠ "") :
    ((doRequest A oauth net k true).2.2).all bearerPresent = true := by
  unfold doRequest doRequestRetry
  rcases hg : getToken A oauth false with ⟨res, lg⟩
  cases res with
  | error r => rfl
  | ok pr =>
    obtain ⟨tok, A2⟩ := pr
    have htok : tok ≠ "" := getToken_token_ne A oauth false hne tok A2 lg hg
    dsimp only
    by_cases h401 : (net k).status = 401
    · rw [if_pos h401]
      rcases hg2 : getToken A2 oauth true with ⟨res2, lg2⟩
      cases res2 with
      | error r =>
        dsimp only
        simp [bearerPresent, htok]
      | ok pr2 =>
        obtain ⟨tok2, A3⟩ := pr2
        have htok2 : tok2 ≠ "" :=
          getToken_token_ne A2 oauth true hne tok2 A3 lg2 hg2
        dsimp only
        simp [bearerPresent, htok, htok2]
    · rw [if_neg h401]
      simp [bearerPresent, htok]

theorem C9_witness :
    ((doRequest ⟨some "u", some "p", none, none⟩ (fun _ => ⟨200, "at", "rt"⟩)
      (fun _ => ⟨200, none⟩) 0 true).2.2).all bearerPresent = true :=
  C9_bearer_nonempty ⟨some "u", some "p", none, none⟩
    (fun _ => ⟨200, "at", "rt"⟩) (fun _ => ⟨200, none⟩) 0
    (by intro g; cases g <;> decide)

/-- C9 counterexample: when the OAuth server returns a 200 whose
access_token is the empty string, the authenticated request reaches the
network with the bearer token "" — the Authorization header is
"Bearer " followed by an empty token, refuting that the token is always
a non-empty string. -/
theorem C9_counterexample :
    (doRequest ⟨some "u", some "p", none, none⟩ (fun _ => ⟨200, "", "r"⟩)
      (fun _ => ⟨200, none⟩) 0 true).2.2 =
      [{ bearer := some "", forced := false }] ∧
    bearerPresent { bearer := some "", forced := false } = false := by
  decide

/-- The pagination loop over a complete server chain yields the
concatenated page results and logs one request per page, a request per
chain entry, with the params argument only on the first request. -/
theorem iterateGo_chain {α : Type} (pages : String → Option (PageResponse α)) :
    ∀ (rest : List (String × PageResponse α)) (u : String)
      (p : PageResponse α) (q : Option (List (String × Nat))) (fuel : Nat),
      pageChain pages ((u, p) :: rest) → rest.length + 1 ≤ fuel →
      iterateGo pages fuel u q =
        some ((((u, p) :: rest).map fun e => e.2.results.getD []).flatten,
          (u, q) :: rest.map fun e => (e.1, none)) := by
  intro rest
  induction rest with
  | nil =>
    intro u p q fuel hch hf
    obtain ⟨hu, hnext, -⟩ := hch
    simp only [List.head?_nil, Option.map_none] at hnext
    cases fuel with
    | zero => omega
    | succ f =>
      unfold iterateGo
      rw [hu]
      dsimp only
      rw [hnext]
      simp
  | cons e rest ih =>
    intro u p q fuel hch hf
    obtain ⟨hu, hnext, hch2⟩ := hch
    obtain ⟨u2, p2⟩ := e
    simp only [List.head?_cons, Option.map_some'] at hnext
    cases fuel with
    | zero => omega
    | succ f =>
      unfold iterateGo
      rw [hu]
      dsimp only
      rw [hnext]
      dsimp only
      rw [ih u2 p2 none f hch2 (by simp at hf; omega)]
      simp

/-- C6: over a server collection split into a chain of pages starting at
the built resource URL, `iterate` yields exactly the records of the
pages, concatenated in server order, and performs exactly one request
per page: the first request carries the defaulted caller params, every
later request uses the URL the server supplied in the preceding next
field with the params discarded (none), and the run ends at the page
whose next field is absent or null. -/
theorem C6_iterate_pages {α : Type} (buildUrl : String → String)
    (pages : String → Option (PageResponse α)) (fuel : Nat)
    (resource : String) (params : Option (List (String × Nat)))
    (p0 : PageResponse α) (rest : List (String × PageResponse α))
    (hch : pageChain pages ((buildUrl resource, p0) :: rest))
    (hf : rest.length + 1 ≤ fuel) :
    iterate buildUrl pages fuel resource params =
      some ((((buildUrl resource, p0) :: rest).map
          fun e => e.2.results.getD []).flatten,
        (buildUrl resource,
          some (setdefault (params.getD []) "page_size" 2500)) ::
          rest.map fun e => (e.1, none)) ∧
    ((buildUrl resource,
        some (setdefault (params.getD []) "page_size" 2500)) ::
        rest.map fun e =>
          (e.1, (none : Option (List (String × Nat))))).length =
      rest.length + 1 := by
  constructor
  · unfold iterate
    exact iterateGo_chain pages rest (buildUrl resource) p0 _ fuel hch hf
  · simp

theorem C6_witness :
    pageChain
      (fun u =>
        if u = "R/" then
          some (⟨some [1, 2], some "R/?page=2"⟩ : PageResponse Nat)
        else if u = "R/?page=2" then some ⟨some [3], none⟩
        else none)
      [((fun r => r ++ "/") "R", ⟨some [1, 2], some "R/?page=2"⟩),
       ("R/?page=2", ⟨some [3], none⟩)] ∧
    iterate (fun r => r ++ "/")
      (fun u =>
        if u = "R/" then
          some (⟨some [1, 2], some "R/?page=2"⟩ : PageResponse Nat)
        else if u = "R/?page=2" then some ⟨some [3], none⟩
        else none)
      3 "R" (some [("active", 1)]) =
      some (([((fun r => r ++ "/") "R",
            (⟨some [1, 2], some "R/?page=2"⟩ : PageResponse Nat)),
           ("R/?page=2", ⟨some [3], none⟩)].map
            fun e => e.2.results.getD []).flatten,
        ((fun r => r ++ "/") "R",
          some (setdefault ((some [("active", 1)]).getD []) "page_size" 2500)) ::
          [("R/?page=2", (⟨some [3], none⟩ : PageResponse Nat))].map
            fun e => (e.1, none)) :=
  ⟨by unfold pageChain; refine ⟨by decide, rfl, by decide, rfl, trivial⟩,
   (C6_iterate_pages (fun r => r ++ "/")
      (fun u =>
        if u = "R/" then
          some (⟨some [1, 2], some "R/?page=2"⟩ : PageResponse Nat)
        else if u = "R/?page=2" then some ⟨some [3], none⟩
        else none)
      3 "R" (some [("active", 1)]) ⟨some [1, 2], some "R/?page=2"⟩
      [("R/?page=2", ⟨some [3], none⟩)]
      (by unfold pageChain; refine ⟨by decide, rfl, by decide, rfl, trivial⟩)
      (by decide)).1⟩

end Bleemeo
